import Mathlib

/-!
Shallow embedding of the SA Fashion Store backend (src/main.py and
src/schemas.py).  Monetary amounts are modelled as exact rationals; the
Python primitive round(x, 2) (round to nearest, ties to even, on exact
values) is modelled by roundNE and round2 below.  The Mongo document store
is modelled as an in-memory list wrapped in Option: none models a database
handle that is None (store unreachable).
-/

namespace Store

/-- Round a rational to the nearest integer, ties to even: the semantics of
the Python round builtin on an exactly represented value. -/
def roundNE (q : ℚ) : ℤ :=
  let n := ⌊q⌋
  let f := q - n
  if f < 1/2 then n
  else if 1/2 < f then n + 1
  else if 2 ∣ n then n else n + 1

/-- Python round(x, 2): round to two decimal places, ties to even. -/
def round2 (q : ℚ) : ℚ := (roundNE (q * 100) : ℚ) / 100

/-- schemas.py lines 16-30: the product collection record. -/
structure Product where
  title : String
  brand : Option String
  description : Option String
  category : String
  price_zar : ℚ
  images : List String
  sizes : List String
  in_stock : Bool
deriving DecidableEq

/-- schemas.py lines 34-40: a cart line item embedded in orders. -/
structure CartItem where
  product_id : String
  title : String
  price_zar : ℚ
  quantity : ℤ
  size : Option String
  image : Option String
deriving DecidableEq

/-- schemas.py lines 42-46: the payment plan embedded in orders.  plan_type
is kept as a String here; the Literal constraint of the pydantic model is
captured separately by paymentPlanValid. -/
structure PaymentPlan where
  plan_type : String
  deposit_percent : ℤ
  months : ℤ
  monthly_amount : ℚ
deriving DecidableEq

/-- schemas.py lines 48-62: the order collection record. -/
structure Order where
  customer_name : String
  email : String
  address : String
  items : List CartItem
  subtotal_zar : ℚ
  shipping_zar : ℚ
  total_zar : ℚ
  currency : String
  payment_plan : PaymentPlan
  status : String
deriving DecidableEq

/-- main.py lines 99-104: the body of POST /api/checkout. -/
structure CheckoutRequest where
  items : List CartItem
  payment_plan : PaymentPlan
  customer_name : String
  email : String
  address : String
deriving DecidableEq

/-- A FastAPI HTTPException raised by a handler. -/
structure HTTPError where
  status_code : ℕ
  detail : String
deriving DecidableEq

/-- Pydantic validation of a CartItem (schemas.py lines 34-40): quantity
carries the constraint ge=1; price_zar is an unconstrained float. -/
def cartItemValid (i : CartItem) : Bool := decide (1 ≤ i.quantity)

/-- Pydantic validation of a PaymentPlan (schemas.py lines 42-46):
plan_type must be one of the two Literal values, and deposit_percent
carries ge=0 and le=100. -/
def paymentPlanValid (p : PaymentPlan) : Bool :=
  (decide (p.plan_type = "once_off") || decide (p.plan_type = "3_month"))
    && decide (0 ≤ p.deposit_percent) && decide (p.deposit_percent ≤ 100)

/-- Pydantic validation of the whole checkout request body: FastAPI rejects
the request with status 422 before the handler runs when this is false. -/
def checkoutRequestValid (r : CheckoutRequest) : Bool :=
  r.items.all cartItemValid && paymentPlanValid r.payment_plan

/-- main.py line 111: subtotal = sum(i.price_zar * i.quantity for i in items),
exact accumulation with no rounding. -/
def subtotalOf (items : List CartItem) : ℚ :=
  (items.map (fun i => i.price_zar * (i.quantity : ℚ))).sum

/-- main.py line 112: shipping = 80.0 if subtotal < 1000 else 0.0. -/
def shippingOf (subtotal : ℚ) : ℚ := if subtotal < 1000 then 80 else 0

/-- main.py lines 115-128: payment plan derivation.  Line 116 reads
deposit_percent or 20, which is Python truthiness on an int: the value 0
(whether defaulted or explicitly supplied) falls back to 20. -/
def planOf (requested : PaymentPlan) (subtotal : ℚ) : PaymentPlan :=
  if requested.plan_type = "3_month" then
    let deposit_percent : ℤ :=
      if requested.deposit_percent = 0 then 20 else requested.deposit_percent
    let deposit := round2 (subtotal * (deposit_percent : ℚ) / 100)
    let remaining := subtotal - deposit
    let months : ℤ := 3
    let monthly_amount := round2 (remaining / (months : ℚ))
    { plan_type := "3_month", deposit_percent := deposit_percent,
      months := months, monthly_amount := monthly_amount }
  else
    { plan_type := "once_off", deposit_percent := 0, months := 1,
      monthly_amount := 0 }

/-- The summary object of the checkout response (main.py lines 149-154). -/
structure CheckoutSummary where
  subtotal_zar : ℚ
  shipping_zar : ℚ
  total_zar : ℚ
  payment_plan : PaymentPlan
deriving DecidableEq

/-- The checkout response body (main.py lines 147-157). -/
structure CheckoutResponse where
  order_id : Option ℕ
  summary : CheckoutSummary
  status : String
  message : String
deriving DecidableEq

/-- main.py lines 106-157: the checkout handler.  Takes the order store
(none when db is None) and returns the HTTP outcome together with the store
afterwards.  create_document is modelled as appending to the list and
returning the index of the new document as its id. -/
def checkout (db : Option (List Order)) (payload : CheckoutRequest) :
    Except HTTPError CheckoutResponse × Option (List Order) :=
  if payload.items = [] then
    (.error { status_code := 400, detail := "Cart is empty" }, db)
  else
    let subtotal := subtotalOf payload.items
    let shipping := shippingOf subtotal
    let plan := planOf payload.payment_plan subtotal
    let total := round2 (subtotal + shipping)
    let order : Order :=
      { customer_name := payload.customer_name, email := payload.email,
        address := payload.address, items := payload.items,
        subtotal_zar := round2 subtotal, shipping_zar := round2 shipping,
        total_zar := total, currency := "ZAR", payment_plan := plan,
        status := "pending" }
    let summary : CheckoutSummary :=
      { subtotal_zar := order.subtotal_zar, shipping_zar := order.shipping_zar,
        total_zar := order.total_zar, payment_plan := plan }
    match db with
    | some orders =>
        (.ok { order_id := some orders.length, summary := summary,
               status := "pending",
               message := "Order created. Proceed to payment." },
         some (orders ++ [order]))
    | none =>
        (.ok { order_id := none, summary := summary, status := "pending",
               message := "Order created. Proceed to payment." },
         none)

/-- Does the list pat occur at the head of the list hay. -/
def headMatch : List Char → List Char → Bool
  | [], _ => true
  | _ :: _, [] => false
  | p :: ps, h :: hs => decide (p = h) && headMatch ps hs

/-- Does the list pat occur anywhere inside hay. -/
def hasSub (hay pat : List Char) : Bool :=
  match hay with
  | [] => headMatch pat []
  | _ :: hs => headMatch pat hay || hasSub hs pat

/-- Mongo regex with options "i" applied to a plain-text pattern: a
case-insensitive substring match. -/
def regexMatchCI (field q : String) : Bool :=
  hasSub (field.toList.map Char.toLower) (q.toList.map Char.toLower)

/-- Regex match against an optional document field: a missing (null) field
never matches. -/
def optMatchCI (field : Option String) (q : String) : Bool :=
  match field with
  | some s => regexMatchCI s q
  | none => false

/-- The Mongo filter built in main.py lines 46-55, as a predicate on a
product.  A missing or empty-string query parameter is falsy in Python, so
it contributes no clause. -/
def matchesFilter (q category : Option String) (p : Product) : Bool :=
  (match category with
   | some c => if c = "" then true else decide (p.category = c)
   | none => true)
  && (match q with
      | some s =>
          if s = "" then true
          else regexMatchCI p.title s || optMatchCI p.brand s
                 || optMatchCI p.description s
      | none => true)

/-- main.py lines 59-87: the three fixed demo products. -/
def demoHoodie : Product :=
  { title := "Classic SA Hoodie", brand := some "Mzansi Threads",
    description := some "Heavyweight fleece with bold embroidery.",
    category := "clothing", price_zar := 799,
    images := ["https://images.unsplash.com/photo-1541099649105-f69ad21f3246?q=80&w=1200&auto=format&fit=crop"],
    sizes := ["S", "M", "L", "XL"], in_stock := true }

def demoSneaker : Product :=
  { title := "Street Runner V2", brand := some "Joburg Kicks",
    description := some "Lightweight, everyday sneaker.",
    category := "shoes", price_zar := 1299,
    images := ["https://images.unsplash.com/photo-1542291026-7eec264c27ff?q=80&w=1200&auto=format&fit=crop"],
    sizes := ["6", "7", "8", "9", "10"], in_stock := true }

def demoTee : Product :=
  { title := "Signature Tee", brand := some "Cape Co.",
    description := some "Premium cotton tee with oversized fit.",
    category := "clothing", price_zar := 349,
    images := ["https://images.unsplash.com/photo-1520975867597-0af37a22e31b?q=80&w=1200&auto=format&fit=crop"],
    sizes := ["S", "M", "L", "XL"], in_stock := true }

def demoProducts : List Product := [demoHoodie, demoSneaker, demoTee]

/-- main.py lines 45-96: the GET /api/products handler.  Takes the product
store (none when db is None) and the two query parameters, and returns the
response documents together with the store afterwards.  Lines 56-58: docs
is the filtered query when the store is reachable, else []; seeding runs
when the store is reachable and docs (the FILTERED result) is empty, and
the re-query at line 90 applies no filter. -/
def list_products (db : Option (List Product)) (q category : Option String) :
    List Product × Option (List Product) :=
  let docs :=
    match db with
    | some store => store.filter (matchesFilter q category)
    | none => []
  match db with
  | some store =>
      if docs = [] then
        let store2 := store ++ demoProducts
        (store2, some store2)
      else (docs, some store)
  | none => (docs, none)

/-! Basic facts about the model of the Python round primitive. -/

theorem roundNE_le (q : ℚ) : (roundNE q : ℚ) ≤ q + 1/2 := by
  have h1 : (⌊q⌋ : ℚ) ≤ q := Int.floor_le q
  have h2 : q < ⌊q⌋ + 1 := Int.lt_floor_add_one q
  simp only [roundNE]
  split_ifs with hc1 hc2 hc3 <;> push_cast <;> linarith

theorem le_roundNE (q : ℚ) : q - 1/2 ≤ (roundNE q : ℚ) := by
  have h1 : (⌊q⌋ : ℚ) ≤ q := Int.floor_le q
  have h2 : q < ⌊q⌋ + 1 := Int.lt_floor_add_one q
  simp only [roundNE]
  split_ifs with hc1 hc2 hc3 <;> push_cast <;> linarith

theorem roundNE_nonneg {q : ℚ} (h : -(1/2) ≤ q) : 0 ≤ roundNE q := by
  have h1 : (⌊q⌋ : ℚ) ≤ q := Int.floor_le q
  have h2 : q < ⌊q⌋ + 1 := Int.lt_floor_add_one q
  have hge : -1 ≤ ⌊q⌋ := by
    rw [Int.le_floor]
    push_cast
    linarith
  simp only [roundNE]
  split_ifs with hc1 hc2 hc3
  · by_contra hneg
    push_neg at hneg
    have hm : ⌊q⌋ = -1 := by omega
    rw [hm] at hc1
    push_cast at hc1
    linarith
  · omega
  · by_contra hneg
    push_neg at hneg
    have hm : ⌊q⌋ = -1 := by omega
    rw [hm] at hc3
    omega
  · omega

theorem round2_le (q : ℚ) : round2 q ≤ q + 1/200 := by
  have h := roundNE_le (q * 100)
  rw [round2]
  linarith

theorem round2_nonneg {q : ℚ} (h : -(1/200) ≤ q) : 0 ≤ round2 q := by
  have h0 : 0 ≤ roundNE (q * 100) := roundNE_nonneg (by linarith)
  have h1 : (0 : ℚ) ≤ (roundNE (q * 100) : ℚ) := by exact_mod_cast h0
  rw [round2]
  linarith

theorem round2_80 : round2 80 = 80 := by norm_num [round2, roundNE]

theorem round2_zero : round2 0 = 0 := by norm_num [round2, roundNE]

/-! Unfolding lemmas for the checkout handler. -/

/-- On a non-empty cart, checkout responds 200 with the summary computed
from the exact subtotal, and the order id taken from the store. -/
theorem checkout_fst (db : Option (List Order)) (payload : CheckoutRequest)
    (h : payload.items ≠ []) :
    (checkout db payload).1 = .ok
      { order_id := match db with
          | some orders => some orders.length
          | none => none,
        summary := { subtotal_zar := round2 (subtotalOf payload.items),
                     shipping_zar := round2 (shippingOf (subtotalOf payload.items)),
                     total_zar := round2 (subtotalOf payload.items
                       + shippingOf (subtotalOf payload.items)),
                     payment_plan := planOf payload.payment_plan
                       (subtotalOf payload.items) },
        status := "pending",
        message := "Order created. Proceed to payment." } := by
  unfold checkout
  rw [if_neg h]
  rcases db with _ | orders <;> rfl

theorem planOf_three_month (p : PaymentPlan) (s : ℚ)
    (h : p.plan_type = "3_month") :
    planOf p s =
      { plan_type := "3_month",
        deposit_percent := if p.deposit_percent = 0 then 20 else p.deposit_percent,
        months := 3,
        monthly_amount := round2 ((s - round2 (s
          * ((if p.deposit_percent = 0 then 20 else p.deposit_percent : ℤ) : ℚ)
          / 100)) / 3) } := by
  rw [planOf, if_pos h]
  norm_num

theorem planOf_other (p : PaymentPlan) (s : ℚ) (h : p.plan_type ≠ "3_month") :
    planOf p s = { plan_type := "once_off", deposit_percent := 0, months := 1,
                   monthly_amount := 0 } := by
  rw [planOf, if_neg h]

example : roundNE (7/2 : ℚ) = 4 := by norm_num [roundNE]
example : roundNE (5/2 : ℚ) = 2 := by norm_num [roundNE]
example : roundNE (-1/2 : ℚ) = 0 := by norm_num [roundNE]
example : round2 (160/3 : ℚ) = 5333/100 := by norm_num [round2, roundNE]
example : round2 (40 : ℚ) = 40 := by norm_num [round2, roundNE]

/-- The worked end-to-end example of the spec: one item at 200, quantity 1,
requested 3_month plan with defaulted (zero) deposit_percent. -/
def exThreeMonthReq : CheckoutRequest :=
  { items := [{ product_id := "p1", title := "Signature Tee", price_zar := 200,
                quantity := 1, size := none, image := none }],
    payment_plan := { plan_type := "3_month", deposit_percent := 0, months := 1,
                      monthly_amount := 0 },
    customer_name := "Thandi Ndlovu", email := "thandi@example.com",
    address := "12 Long Street, Cape Town" }

example :
    (checkout none exThreeMonthReq).1 = .ok
      { order_id := none,
        summary := { subtotal_zar := 200, shipping_zar := 80, total_zar := 280,
                     payment_plan := { plan_type := "3_month", deposit_percent := 20,
                                       months := 3, monthly_amount := 5333/100 } },
        status := "pending", message := "Order created. Proceed to payment." } := by
  rw [checkout_fst none exThreeMonthReq (by decide)]
  norm_num [exThreeMonthReq, subtotalOf, shippingOf, planOf, round2, roundNE]

/-- C1: for every checkout with plan_type 3_month and a non-empty item
list, the emitted plan has months = 3 regardless of any caller-supplied
months value, deposit = round2(subtotal * depositPercent / 100) plus the
exactly computed remaining = subtotal - deposit recover the subtotal
exactly, and monthly_amount = round2(remaining / 3). -/
theorem three_month_plan_arithmetic (db : Option (List Order))
    (payload : CheckoutRequest) (hne : payload.items ≠ [])
    (hty : payload.payment_plan.plan_type = "3_month") :
    ∃ resp, (checkout db payload).1 = .ok resp ∧
      resp.summary.payment_plan.months = 3 ∧
      round2 (subtotalOf payload.items
          * (resp.summary.payment_plan.deposit_percent : ℚ) / 100)
        + (subtotalOf payload.items
            - round2 (subtotalOf payload.items
                * (resp.summary.payment_plan.deposit_percent : ℚ) / 100))
        = subtotalOf payload.items ∧
      resp.summary.payment_plan.monthly_amount
        = round2 ((subtotalOf payload.items
            - round2 (subtotalOf payload.items
                * (resp.summary.payment_plan.deposit_percent : ℚ) / 100)) / 3) := by
  refine ⟨_, checkout_fst db payload hne, ?_, by ring, ?_⟩
  · rw [planOf_three_month _ _ hty]
  · rw [planOf_three_month _ _ hty]

/-- Witness for C1 at the worked example request. -/
theorem three_month_plan_arithmetic_w :
    ∃ resp, (checkout none exThreeMonthReq).1 = .ok resp ∧
      resp.summary.payment_plan.months = 3 ∧
      round2 (subtotalOf exThreeMonthReq.items
          * (resp.summary.payment_plan.deposit_percent : ℚ) / 100)
        + (subtotalOf exThreeMonthReq.items
            - round2 (subtotalOf exThreeMonthReq.items
                * (resp.summary.payment_plan.deposit_percent : ℚ) / 100))
        = subtotalOf exThreeMonthReq.items ∧
      resp.summary.payment_plan.monthly_amount
        = round2 ((subtotalOf exThreeMonthReq.items
            - round2 (subtotalOf exThreeMonthReq.items
                * (resp.summary.payment_plan.deposit_percent : ℚ) / 100)) / 3) :=
  three_month_plan_arithmetic none exThreeMonthReq (by decide) rfl

/-- C2 (amended): for a 3_month checkout the deposit percent actually used
is the caller-supplied value when that value is nonzero, and 20 whenever
the supplied value is 0 — whether the 0 was defaulted by the schema or
explicitly supplied — because main.py line 116 applies Python truthiness. -/
theorem deposit_percent_python_truthiness (db : Option (List Order))
    (payload : CheckoutRequest) (hne : payload.items ≠ [])
    (hty : payload.payment_plan.plan_type = "3_month") :
    ∃ resp, (checkout db payload).1 = .ok resp ∧
      resp.summary.payment_plan.deposit_percent
        = (if payload.payment_plan.deposit_percent = 0 then 20
           else payload.payment_plan.deposit_percent) := by
  refine ⟨_, checkout_fst db payload hne, ?_⟩
  rw [planOf_three_month _ _ hty]

/-- Witness for C2 (amended) at a request supplying deposit_percent 35. -/
theorem deposit_percent_python_truthiness_w :
    ∃ resp, (checkout none { exThreeMonthReq with
        payment_plan := { plan_type := "3_month", deposit_percent := 35,
                          months := 3, monthly_amount := 0 } }).1 = .ok resp ∧
      resp.summary.payment_plan.deposit_percent
        = (if ({ exThreeMonthReq with
              payment_plan := { plan_type := "3_month", deposit_percent := 35,
                                months := 3, monthly_amount := 0 }
            } : CheckoutRequest).payment_plan.deposit_percent = 0 then 20
           else ({ exThreeMonthReq with
              payment_plan := { plan_type := "3_month", deposit_percent := 35,
                                months := 3, monthly_amount := 0 }
            } : CheckoutRequest).payment_plan.deposit_percent) :=
  deposit_percent_python_truthiness none _ (by decide) rfl

/-- A schema-valid request that explicitly supplies deposit_percent = 0. -/
def cexSuppliedZeroReq : CheckoutRequest :=
  { items := [{ product_id := "p3", title := "Classic SA Hoodie",
                price_zar := 799, quantity := 1, size := some "M",
                image := none }],
    payment_plan := { plan_type := "3_month", deposit_percent := 0,
                      months := 3, monthly_amount := 0 },
    customer_name := "Sipho Dlamini", email := "sipho@example.com",
    address := "5 Vilakazi Street, Soweto" }

/-- C2 (counterexample): the claim says an explicitly supplied 0 is used as
the deposit percent; on this schema-valid request that supplies 0 the code
emits deposit_percent = 20. -/
theorem supplied_zero_deposit_becomes_twenty :
    cexSuppliedZeroReq.payment_plan.deposit_percent = 0 ∧
    checkoutRequestValid cexSuppliedZeroReq = true ∧
    ∃ resp, (checkout none cexSuppliedZeroReq).1 = .ok resp ∧
      resp.summary.payment_plan.deposit_percent = 20 := by
  refine ⟨rfl, by decide, _, checkout_fst none _ (by decide), ?_⟩
  rw [planOf_three_month _ _ rfl]
  rfl

/-- C3: shipping is exactly 80 when the exact subtotal is strictly below
1000 and exactly 0 when it is at least 1000 (so exactly 1000 ships free). -/
theorem shipping_threshold_rule (db : Option (List Order))
    (payload : CheckoutRequest) (hne : payload.items ≠ []) :
    ∃ resp, (checkout db payload).1 = .ok resp ∧
      (subtotalOf payload.items < 1000 → resp.summary.shipping_zar = 80) ∧
      (1000 ≤ subtotalOf payload.items → resp.summary.shipping_zar = 0) := by
  refine ⟨_, checkout_fst db payload hne, ?_, ?_⟩
  · intro h
    show round2 (shippingOf (subtotalOf payload.items)) = 80
    rw [shippingOf, if_pos h, round2_80]
  · intro h
    show round2 (shippingOf (subtotalOf payload.items)) = 0
    rw [shippingOf, if_neg (not_lt.2 h), round2_zero]

/-- Witness for C3 at a cart whose subtotal is exactly 1000. -/
theorem shipping_threshold_rule_w :
    (∃ resp, (checkout none { exThreeMonthReq with
        items := [{ product_id := "p4", title := "Street Runner V2",
                    price_zar := 500, quantity := 2, size := none,
                    image := none }] }).1 = .ok resp ∧
      (subtotalOf ({ exThreeMonthReq with
          items := [{ product_id := "p4", title := "Street Runner V2",
                      price_zar := 500, quantity := 2, size := none,
                      image := none }] } : CheckoutRequest).items < 1000 →
        resp.summary.shipping_zar = 80) ∧
      (1000 ≤ subtotalOf ({ exThreeMonthReq with
          items := [{ product_id := "p4", title := "Street Runner V2",
                      price_zar := 500, quantity := 2, size := none,
                      image := none }] } : CheckoutRequest).items →
        resp.summary.shipping_zar = 0)) :=
  shipping_threshold_rule none _ (by decide)

/-- C4: the subtotal is the exact sum of price times quantity with no
rounding during accumulation, the emitted subtotal and total round it only
at emission, the shipping decision reads the unrounded subtotal, and the
payment plan is derived from the unrounded subtotal. -/
theorem exact_subtotal_and_rounded_total (db : Option (List Order))
    (payload : CheckoutRequest) (hne : payload.items ≠ []) :
    ∃ resp, (checkout db payload).1 = .ok resp ∧
      subtotalOf payload.items
        = (payload.items.map (fun i => i.price_zar * (i.quantity : ℚ))).sum ∧
      resp.summary.subtotal_zar = round2 (subtotalOf payload.items) ∧
      resp.summary.total_zar
        = round2 (subtotalOf payload.items
            + shippingOf (subtotalOf payload.items)) ∧
      resp.summary.payment_plan
        = planOf payload.payment_plan (subtotalOf payload.items) :=
  ⟨_, checkout_fst db payload hne, rfl, rfl, rfl, rfl⟩

/-- Witness for C4 at the worked example request. -/
theorem exact_subtotal_and_rounded_total_w :
    ∃ resp, (checkout none exThreeMonthReq).1 = .ok resp ∧
      subtotalOf exThreeMonthReq.items
        = (exThreeMonthReq.items.map
            (fun i => i.price_zar * (i.quantity : ℚ))).sum ∧
      resp.summary.subtotal_zar = round2 (subtotalOf exThreeMonthReq.items) ∧
      resp.summary.total_zar
        = round2 (subtotalOf exThreeMonthReq.items
            + shippingOf (subtotalOf exThreeMonthReq.items)) ∧
      resp.summary.payment_plan
        = planOf exThreeMonthReq.payment_plan
            (subtotalOf exThreeMonthReq.items) :=
  exact_subtotal_and_rounded_total none exThreeMonthReq (by decide)

/-- C5: an empty items list makes checkout fail with status 400 and detail
Cart is empty, leaving the order store exactly as it was (nothing is
persisted) and producing no other response fields. -/
theorem empty_cart_checkout_rejected (db : Option (List Order))
    (payload : CheckoutRequest) (h : payload.items = []) :
    checkout db payload
      = (.error { status_code := 400, detail := "Cart is empty" }, db) := by
  unfold checkout
  rw [if_pos h]

/-- Witness for C5 at an empty-cart request over a store holding no orders. -/
theorem empty_cart_checkout_rejected_w :
    checkout (some []) { exThreeMonthReq with items := [] }
      = (.error { status_code := 400, detail := "Cart is empty" }, some []) :=
  empty_cart_checkout_rejected (some []) _ rfl

/-- A checkout request whose plan_type is the unrecognized value weekly. -/
def cexWeeklyReq : CheckoutRequest :=
  { items := [{ product_id := "p5", title := "Signature Tee", price_zar := 349,
                quantity := 2, size := some "L", image := none }],
    payment_plan := { plan_type := "weekly", deposit_percent := 10,
                      months := 4, monthly_amount := 5 },
    customer_name := "Lerato Mokoena", email := "lerato@example.com",
    address := "8 Florida Road, Durban" }

/-- C6 (counterexample): the claim says an unrecognized plan_type is not
treated as an error, but the pydantic Literal on schemas.py line 43 makes
request validation reject this body (status 422) before the handler runs. -/
theorem unrecognized_plan_type_is_rejected :
    cexWeeklyReq.payment_plan.plan_type ≠ "3_month" ∧
    checkoutRequestValid cexWeeklyReq = false := by decide

/-- C6 (amended): any request reaching the handler body with a plan_type
other than 3_month gets the canonical once_off plan regardless of its
supplied deposit_percent, months and monthly_amount; and the schema admits
only once_off as such a value, so an unrecognized plan_type is rejected by
validation rather than silently degraded. -/
theorem non_three_month_gets_canonical_once_off (db : Option (List Order))
    (payload : CheckoutRequest) (hne : payload.items ≠ [])
    (hty : payload.payment_plan.plan_type ≠ "3_month") :
    (∃ resp, (checkout db payload).1 = .ok resp ∧
       resp.summary.payment_plan
         = { plan_type := "once_off", deposit_percent := 0, months := 1,
             monthly_amount := 0 }) ∧
    (paymentPlanValid payload.payment_plan = true →
       payload.payment_plan.plan_type = "once_off") := by
  constructor
  · exact ⟨_, checkout_fst db payload hne, planOf_other _ _ hty⟩
  · intro hv
    simp only [paymentPlanValid, Bool.and_eq_true, Bool.or_eq_true,
      decide_eq_true_eq] at hv
    rcases hv with ⟨⟨h1 | h1, _⟩, _⟩
    · exact h1
    · exact absurd h1 hty

/-- A once_off request that supplies nonzero plan numbers to be ignored. -/
def wOnceOffReq : CheckoutRequest :=
  { items := [{ product_id := "p4", title := "Street Runner V2",
                price_zar := 500, quantity := 2, size := none,
                image := none }],
    payment_plan := { plan_type := "once_off", deposit_percent := 55,
                      months := 9, monthly_amount := 77 },
    customer_name := "Anele Khumalo", email := "anele@example.com",
    address := "3 Church Square, Pretoria" }

/-- Witness for C6 (amended) at a once_off request carrying nonzero
deposit_percent, months and monthly_amount. -/
theorem non_three_month_gets_canonical_once_off_w :
    (∃ resp, (checkout none wOnceOffReq).1 = .ok resp ∧
       resp.summary.payment_plan
         = { plan_type := "once_off", deposit_percent := 0, months := 1,
             monthly_amount := 0 }) ∧
    (paymentPlanValid wOnceOffReq.payment_plan = true →
       wOnceOffReq.payment_plan.plan_type = "once_off") :=
  non_three_month_gets_canonical_once_off none wOnceOffReq (by decide)
    (by decide)

/-- C7: seeding is keyed on the FILTERED query result being empty (main.py
line 58), so a category filter that matches nothing on a non-empty catalog
seeds the three demo products and the re-query returns the whole catalog
unfiltered.  Here the store holds one shoes product and the query asks for
category clothing: the store afterwards has grown to four products.  The
comment on main.py line 57 (If no products exist) documents the global
emptiness gate that the claim states. -/
theorem filter_miss_on_nonempty_catalog_seeds :
    ([demoSneaker] : List Product) ≠ [] ∧
    list_products (some [demoSneaker]) none (some "clothing")
      = (demoSneaker :: demoProducts, some (demoSneaker :: demoProducts)) :=
  ⟨by decide, rfl⟩

/-- C8: with the storage collaborator unavailable (db is None) a non-empty
cart checkout still succeeds with the computed summary, the order id is
absent, and no server error is raised. -/
theorem storage_unavailable_checkout_succeeds (payload : CheckoutRequest)
    (hne : payload.items ≠ []) :
    ∃ resp, checkout none payload = (.ok resp, none) ∧
      resp.order_id = none ∧
      resp.summary.total_zar
        = round2 (subtotalOf payload.items
            + shippingOf (subtotalOf payload.items)) := by
  unfold checkout
  rw [if_neg hne]
  exact ⟨_, rfl, rfl, rfl⟩

/-- Witness for C8 at a concrete request against an unavailable store. -/
theorem storage_unavailable_checkout_succeeds_w :
    ∃ resp, checkout none cexSuppliedZeroReq = (.ok resp, none) ∧
      resp.order_id = none ∧
      resp.summary.total_zar
        = round2 (subtotalOf cexSuppliedZeroReq.items
            + shippingOf (subtotalOf cexSuppliedZeroReq.items)) :=
  storage_unavailable_checkout_succeeds cexSuppliedZeroReq (by decide)

/-- A non-empty request whose single item has quantity 0. -/
def cexZeroQtyReq : CheckoutRequest :=
  { items := [{ product_id := "p6", title := "Street Runner V2",
                price_zar := 1299, quantity := 0, size := none,
                image := none }],
    payment_plan := { plan_type := "once_off", deposit_percent := 0,
                      months := 1, monthly_amount := 0 },
    customer_name := "Naledi Botha", email := "naledi@example.com",
    address := "21 Main Road, Stellenbosch" }

/-- C9 (counterexample): the claim says no check rejects non-positive
quantities, but the pydantic constraint ge=1 on schemas.py line 38 rejects
this non-empty cart whose item has quantity 0 (status 422). -/
theorem zero_quantity_rejected_by_schema :
    cexZeroQtyReq.items ≠ [] ∧
    checkoutRequestValid cexZeroQtyReq = false := by decide

/-- C9 (amended): the handler itself performs only the empty-cart check —
it succeeds on every non-empty items list whatever the prices and
quantities — while request-body validation constrains exactly the item
quantity (ge=1) and puts no constraint on the sign or magnitude of
price_zar. -/
theorem handler_only_checks_emptiness (db : Option (List Order))
    (payload : CheckoutRequest) (hne : payload.items ≠ []) :
    (∃ resp, (checkout db payload).1 = .ok resp) ∧
    (∀ i : CartItem, cartItemValid i = true ↔ 1 ≤ i.quantity) := by
  refine ⟨⟨_, checkout_fst db payload hne⟩, ?_⟩
  intro i
  simp [cartItemValid]

/-- A non-empty request whose single item has a negative price. -/
def wNegativePriceReq : CheckoutRequest :=
  { items := [{ product_id := "p7", title := "Goodwill credit",
                price_zar := -250, quantity := 3, size := none,
                image := none }],
    payment_plan := { plan_type := "once_off", deposit_percent := 0,
                      months := 1, monthly_amount := 0 },
    customer_name := "Pieter van Wyk", email := "pieter@example.com",
    address := "14 Beach Road, Gqeberha" }

/-- Witness for C9 (amended) at a cart with a negative price. -/
theorem handler_only_checks_emptiness_w :
    (∃ resp, (checkout none wNegativePriceReq).1 = .ok resp) ∧
    (∀ i : CartItem, cartItemValid i = true ↔ 1 ≤ i.quantity) :=
  handler_only_checks_emptiness none wNegativePriceReq (by decide)

/-- C10: for a 3_month checkout on a schema-valid non-empty cart with all
prices non-negative (the schema enforces deposit_percent between 0 and 100
and quantities at least 1), the emitted monthly_amount is non-negative:
rounding the deposit can exceed the exact subtotal by at most 1/200, far
too little to push the rounded monthly amount below zero. -/
theorem monthly_amount_nonneg (db : Option (List Order))
    (payload : CheckoutRequest) (hne : payload.items ≠ [])
    (hty : payload.payment_plan.plan_type = "3_month")
    (hval : checkoutRequestValid payload = true)
    (hprice : ∀ i ∈ payload.items, 0 ≤ i.price_zar) :
    ∃ resp, (checkout db payload).1 = .ok resp ∧
      0 ≤ resp.summary.payment_plan.monthly_amount := by
  refine ⟨_, checkout_fst db payload hne, ?_⟩
  rw [planOf_three_month _ _ hty]
  show 0 ≤ round2 ((subtotalOf payload.items
      - round2 (subtotalOf payload.items
          * (((if payload.payment_plan.deposit_percent = 0 then 20
               else payload.payment_plan.deposit_percent) : ℤ) : ℚ) / 100)) / 3)
  obtain ⟨hitems, hplanv⟩ :
      payload.items.all cartItemValid = true ∧
        paymentPlanValid payload.payment_plan = true := by
    simpa [checkoutRequestValid, Bool.and_eq_true] using hval
  have hdp : 0 ≤ payload.payment_plan.deposit_percent ∧
      payload.payment_plan.deposit_percent ≤ 100 := by
    simp only [paymentPlanValid, Bool.and_eq_true, decide_eq_true_eq] at hplanv
    exact ⟨hplanv.1.2, hplanv.2⟩
  have hq : ∀ i ∈ payload.items, (1 : ℤ) ≤ i.quantity := by
    intro i hi
    have hall := List.all_eq_true.mp hitems i hi
    simpa [cartItemValid] using hall
  set s := subtotalOf payload.items with hs_def
  have hs : 0 ≤ s := by
    rw [hs_def, subtotalOf]
    apply List.sum_nonneg
    intro x hx
    obtain ⟨i, hi, rfl⟩ := List.mem_map.mp hx
    have h1 := hprice i hi
    have h2 : (0 : ℚ) ≤ (i.quantity : ℚ) := by
      have h3 := hq i hi
      exact_mod_cast le_trans zero_le_one h3
    exact mul_nonneg h1 h2
  set dpu : ℤ := if payload.payment_plan.deposit_percent = 0 then 20
    else payload.payment_plan.deposit_percent with hdpu_def
  have hdpu0 : (0 : ℚ) ≤ (dpu : ℚ) := by
    rw [hdpu_def]
    split_ifs with h0
    · norm_num
    · exact_mod_cast hdp.1
  have hdpu100 : (dpu : ℚ) ≤ 100 := by
    rw [hdpu_def]
    split_ifs with h0
    · norm_num
    · exact_mod_cast hdp.2
  have hdep_le : round2 (s * (dpu : ℚ) / 100) ≤ s + 1/200 := by
    have h1 := round2_le (s * (dpu : ℚ) / 100)
    have h2 : s * (dpu : ℚ) / 100 ≤ s := by
      rw [div_le_iff₀ (by norm_num : (0 : ℚ) < 100)]
      nlinarith
    linarith
  apply round2_nonneg
  linarith

/-- Witness for C10 at the worked example request over an empty store. -/
theorem monthly_amount_nonneg_w :
    ∃ resp, (checkout (some []) exThreeMonthReq).1 = .ok resp ∧
      0 ≤ resp.summary.payment_plan.monthly_amount :=
  monthly_amount_nonneg (some []) exThreeMonthReq (by decide) rfl (by decide)
    (by
      intro i hi
      simp only [exThreeMonthReq, List.mem_singleton] at hi
      subst hi
      norm_num)

end Store
